import Mathlib

/-!
Verification of the polling-and-reconciliation engine of the
twitch-stream-swapper extension.

The JavaScript sources are shallowly embedded:

* `utils/fallback-mode.js`  → `shouldRerollCategoryFallback`
* `utils/twitch-api.js`     → `checkStreamsStatus`, `requestOnce` (cache and
  rate-window bookkeeping of `_request`), `requestRetryModel` (the retry /
  error-classification logic of `_request`), `makeBatches`, `isValidUsername`
* the background service worker → `pollCycle` (the body of
  `BackgroundWorker.pollStreams` and its callees `handleAutoSwitch`,
  `shouldSwitchToStream`, `switchToStream`, `_handleCategoryFallbackInternal`),
  `isTwitchUrl`, `getChannelFromTwitchUrl`, and the 5-second poll throttle
  (`timerPoll` / `forcePoll`).

JavaScript strings are Lean `String`s and the handful of string operations the
code uses (`toLowerCase`, `trim`, `endsWith`, `split('/')`) are implemented
structurally over the character list so that every definition evaluates by
kernel reduction.  JavaScript objects used as string-keyed maps are association
lists written through `jsSet` (assignment replaces an existing key) and read
through `List.lookup` (`undefined` when the key is absent).  Timestamps are
`Nat` milliseconds.  Network effects are environments passed in explicitly:
a poll cycle receives the tab table, the stored stream list, the status map and
the category-lookup answer; the status client receives the outcome of each
physical request.
-/

/-- JavaScript `String.prototype.toLowerCase` (ASCII as used by the code). -/
def jsToLower (s : String) : String := ⟨s.data.map Char.toLower⟩

/-- JavaScript `String.prototype.trim`. -/
def jsTrim (s : String) : String :=
  ⟨((s.data.dropWhile Char.isWhitespace).reverse.dropWhile Char.isWhitespace).reverse⟩

/-- JavaScript `String.prototype.endsWith`. -/
def strEndsWith (s suf : String) : Bool := suf.data.isSuffixOf s.data

/-- Split a character list at every occurrence of `c` (JavaScript
`String.prototype.split` with a one-character separator). -/
def splitOnChar (c : Char) : List Char → List (List Char)
  | [] => [[]]
  | x :: rest =>
    let r := splitOnChar c rest
    if x = c then [] :: r
    else match r with
      | [] => [[x]]
      | h :: t => (x :: h) :: t

/-- JavaScript `path.split('/')`. -/
def jsSplitSlash (s : String) : List String :=
  (splitOnChar '/' s.data).map (fun l => ⟨l⟩)

/-- JavaScript `x || ''` for a nullable string (`none` models `null`/`undefined`). -/
def jsOrEmpty : Option String → String
  | none => ""
  | some s => s

/-- JavaScript truthiness of a nullable string: `null`/`undefined` and the
empty string are falsy. -/
def jsTruthyStr : Option String → Bool
  | none => false
  | some s => s ≠ ""

/-- Assignment `m[k] = v` on a JavaScript object used as a map: replaces the
binding if the key is present, otherwise appends it. -/
def jsSet {α : Type} : List (String × α) → String → α → List (String × α)
  | [], k, v => [(k, v)]
  | (k', v') :: t, k, v =>
    if k' = k then (k, v) :: t else (k', v') :: jsSet t k v

/-- `Map.prototype.delete`: remove the binding of `k` (first occurrence). -/
def eraseKey {α : Type} : List (String × α) → String → List (String × α)
  | [], _ => []
  | (k', v') :: t, k => if k' = k then t else (k', v') :: eraseKey t k

/-! ## `utils/fallback-mode.js` -/

/-- The category-changed test of `shouldRerollCategoryFallback`
(`fallback-mode.js` line 37): both categories coerced with `|| ''`, trimmed,
and the branch fires only when both are non-empty and differ after
`toLowerCase`. -/
def catChanged (runtimeCategory settingsCategory : Option String) : Bool :=
  let configured := jsTrim (jsOrEmpty settingsCategory)
  let activeCategory := jsTrim (jsOrEmpty runtimeCategory)
  configured ≠ "" && activeCategory ≠ "" &&
    jsToLower configured ≠ jsToLower activeCategory

/-- `shouldRerollCategoryFallback` from `utils/fallback-mode.js` lines 24-46. -/
def shouldRerollCategoryFallback (force isFallbackActive : Bool)
    (currentChannel runtimeCategory settingsCategory : Option String) : Bool :=
  if force then true
  else if catChanged runtimeCategory settingsCategory then true
  else if isFallbackActive && jsTruthyStr currentChannel then false
  else true

/-- The reroll decision as the claim words it: the category-changed branch
fires whenever the configured category differs case-insensitively from the
runtime one, with no requirement that both be non-empty.  Used only to compare
the claim against the code. -/
def claimedShouldReroll (force isFallbackActive : Bool)
    (currentChannel runtimeCategory settingsCategory : Option String) : Bool :=
  if force then true
  else if jsToLower (jsOrEmpty settingsCategory) ≠ jsToLower (jsOrEmpty runtimeCategory) then true
  else if isFallbackActive && jsTruthyStr currentChannel then false
  else true

/-! ## URL helpers of the background worker (part_008 lines 380-413) -/

/-- A parsed URL: the hostname and the pathname, as produced by `new URL`.
A `tab.url` that is missing, empty, or unparseable is modelled as `none`
(the `URL` constructor throws and both helpers return their failure value). -/
structure ParsedUrl where
  host : String
  path : String
  deriving DecidableEq, Repr

/-- The hostname test shared by `isTwitchUrl` and `getChannelFromTwitchUrl`. -/
def isTwitchHost (h : String) : Bool :=
  h = "twitch.tv" || strEndsWith h ".twitch.tv" ||
    h = "twitch.com" || strEndsWith h ".twitch.com"

/-- `isTwitchUrl` from part_008 lines 380-388. -/
def isTwitchUrl : Option ParsedUrl → Bool
  | none => false
  | some u => isTwitchHost (jsToLower u.host)

/-- The reserved first path segments of `getChannelFromTwitchUrl`. -/
def reservedSegs : List String :=
  ["directory", "downloads", "p", "videos", "clips", "search",
   "settings", "subscriptions", "wallet", "turbo", "prime",
   "inventory", "drops", "friends", "messages", "moderator",
   "safety", "jobs", "privacy", "terms"]

/-- `getChannelFromTwitchUrl` from part_008 lines 390-413. -/
def getChannelFromTwitchUrl : Option ParsedUrl → Option String
  | none => none
  | some u =>
    if !isTwitchHost (jsToLower u.host) then none
    else
      let path := if u.path = "" then "/" else u.path
      match (jsSplitSlash path).filter (fun s => s ≠ "") with
      | [] => none
      | seg :: _ =>
        if reservedSegs.contains (jsToLower seg) then none
        else some (jsToLower seg)

/-! ## `utils/twitch-api.js` (part_010 second revision, lines 274-607) -/

/-- One stream record of a successful `/streams` payload; only the
`user_login` field is consumed by `checkStreamsStatus`. -/
structure StreamData where
  user_login : String
  deriving DecidableEq, Repr

/-- The errors `_request` and `checkStreamsStatus` can raise.  The first eight
are the `error.code` values attached in `_request`; `invalidUsername` models
the plain `Error('Invalid username format')` thrown by `checkStreamsStatus`. -/
inductive ApiError
  | rateLimit
  | authError
  | serverError
  | notFound
  | apiError
  | parseError
  | timeout
  | networkError
  | invalidUsername
  deriving DecidableEq, Repr

/-- Outcome of the single `_request` call made for one batch, as seen by
`checkStreamsStatus`: either the parsed payload (`data.data`, `[]` when the
field is missing) or the error the call threw. -/
inductive BatchOutcome
  | ok (payload : List StreamData)
  | err (e : ApiError)
  deriving DecidableEq, Repr

/-- Outcome of one physical fetch attempt inside `_request`: a parsed success
body, a non-ok HTTP status, a success status with an unparseable body, an
abort by the 30s timeout, or a connection failure. -/
inductive AttemptOutcome
  | ok (payload : List StreamData)
  | http (code : Nat)
  | badJson
  | timeout
  | netfail
  deriving DecidableEq, Repr

/-- Character class of the username regex `[a-zA-Z0-9_]`. -/
def isUsernameChar (c : Char) : Bool :=
  ('a' ≤ c && c ≤ 'z') || ('A' ≤ c && c ≤ 'Z') || ('0' ≤ c && c ≤ '9') || c = '_'

/-- The username test `/^[a-zA-Z0-9_]{4,25}$/.test(u)`. -/
def isValidUsername (u : String) : Bool :=
  4 ≤ u.data.length && u.data.length ≤ 25 && u.data.all isUsernameChar

/-- `usernames.filter(u => u && /^[a-zA-Z0-9_]{4,25}$/.test(u))`. -/
def validUsernames (usernames : List String) : List String :=
  usernames.filter (fun u => u ≠ "" && isValidUsername u)

/-- The batching loop `for (let i = 0; i < a.length; i += 100)
batches.push(a.slice(i, i + 100))`: iteration `i` contributes
`a.slice(100*i, 100*i + 100)` and the loop runs `⌈a.length / 100⌉` times. -/
def makeBatches (l : List String) : List (List String) :=
  (List.range ((l.length + 99) / 100)).map (fun i => (l.drop (100 * i)).take 100)

/-- `data.data.forEach(s => liveStreams[s.user_login.toLowerCase()] = s)`. -/
def buildLiveStreams (payload : List StreamData) : List (String × StreamData) :=
  payload.foldl (fun m s => jsSet m (jsToLower s.user_login) s) []

/-- The mutable state of the batch loop in `checkStreamsStatus`:
`results`, `hasError`, `lastError`. -/
structure BatchAcc where
  results : List (String × Option StreamData)
  hasError : Bool
  lastError : Option ApiError
  deriving DecidableEq, Repr

/-- One iteration of the batch loop (part_010 lines 487-518): on success every
name of the batch is mapped to `liveStreams[name.toLowerCase()] || null`; on a
caught error every name of the batch is mapped to `null` and
`hasError`/`lastError` are updated. -/
def processBatch (env : Nat → BatchOutcome) (i : Nat) (batch : List String)
    (acc : BatchAcc) : BatchAcc :=
  match env i with
  | .ok payload =>
    let live := buildLiveStreams payload
    { acc with
      results := batch.foldl (fun r u => jsSet r u (List.lookup (jsToLower u) live)) acc.results }
  | .err e =>
    { results := batch.foldl (fun r u => jsSet r u none) acc.results,
      hasError := true, lastError := some e }

/-- The batch loop itself; `i` is the index of the next physical request. -/
def runBatches (env : Nat → BatchOutcome) : List (List String) → Nat → BatchAcc → BatchAcc
  | [], _, acc => acc
  | b :: rest, i, acc => runBatches env rest (i + 1) (processBatch env i b acc)

/-- `TwitchAPI.checkStreamsStatus` (part_010 lines 466-527).  `none` models a
`null`/`undefined` argument.  `env i` is the outcome of the `_request` call for
batch `i`.  After the loop the caught error is re-thrown only when
`hasError && lastError && (lastError.code === 'AUTH_ERROR' ||
lastError.code === 'RATE_LIMIT')`. -/
def checkStreamsStatus (env : Nat → BatchOutcome) (usernames : Option (List String)) :
    Except ApiError (List (String × Option StreamData)) :=
  match usernames with
  | none => .ok []
  | some us =>
    if us.length = 0 then .ok []
    else
      let valid := validUsernames us
      if valid.length = 0 then .error .invalidUsername
      else
        let acc := runBatches env (makeBatches valid) 0 ⟨[], false, none⟩
        if acc.hasError then
          match acc.lastError with
          | some e => if e = .authError || e = .rateLimit then .error e else .ok acc.results
          | none => .ok acc.results
        else .ok acc.results

/-- `Except.isOk` as a plain definition on the result of `checkStreamsStatus`. -/
def exceptIsOk {ε α : Type} : Except ε α → Bool
  | .ok _ => true
  | .error _ => false

/-- Observer of the batch loop: the error of the last failing batch, starting
from index `i` with accumulator `acc` (mirrors how `lastError` evolves). -/
def lastFailure (env : Nat → BatchOutcome) : List (List String) → Nat → Option ApiError → Option ApiError
  | [], _, acc => acc
  | _ :: rest, i, acc =>
    lastFailure env rest (i + 1)
      (match env i with | .ok _ => acc | .err e => some e)

/-- Observer of the batch loop: whether any batch starting from index `i` fails. -/
def anyFail (env : Nat → BatchOutcome) : List (List String) → Nat → Bool
  | [], _ => false
  | _ :: rest, i =>
    (match env i with | .ok _ => false | .err _ => true) || anyFail env rest (i + 1)

/-- The value assigned to name `u` by batch `i`: `null` when the batch's
request failed, otherwise the live-stream record found for the lowercased
name. -/
def batchVal (env : Nat → BatchOutcome) (i : Nat) (u : String) : Option StreamData :=
  match env i with
  | .ok payload => List.lookup (jsToLower u) (buildLiveStreams payload)
  | .err _ => none

/-- Observer of the batch loop: the last value assigned to key `u`
(`acc` is the value before these batches run, `none` meaning no assignment). -/
def lastAssign (env : Nat → BatchOutcome) :
    List (List String) → Nat → String → Option (Option StreamData) → Option (Option StreamData)
  | [], _, _, acc => acc
  | b :: rest, i, u, acc =>
    lastAssign env rest (i + 1) u (if u ∈ b then some (batchVal env i u) else acc)

/-! ### `_request`: cache and rate-window bookkeeping (part_010 lines 318-367, 426-431) -/

/-- One entry of the response cache: `{ data, timestamp }`. -/
structure CacheEntry where
  data : List StreamData
  timestamp : Nat
  deriving DecidableEq, Repr

/-- The mutable state of `TwitchAPI` that `_checkRateLimit` and the cache logic
touch: `cache`, `requestCount` and `requestWindow`.  `cacheTTL = 30000` and
`MAX_REQUESTS_PER_MINUTE = 800` are the constructor constants. -/
structure ApiState where
  cache : List (String × CacheEntry)
  requestCount : Nat
  requestWindow : Nat
  deriving DecidableEq, Repr

/-- `TwitchAPI._checkRateLimit` (part_010 lines 318-338).  Returns the updated
state together with the current time after the `setTimeout` sleep, if any;
in the sleep branch the counter is reset and the window restarted at the
post-sleep clock, after which `requestCount++` still runs. -/
def checkRateLimit (st : ApiState) (now : Nat) : ApiState × Nat :=
  let st1 := if now - st.requestWindow > 60000 then
      { st with requestCount := 0, requestWindow := now }
    else st
  if st1.requestCount ≥ 800 then
    let waitTime := 60000 - (now - st1.requestWindow)
    if waitTime > 0 then
      let now2 := now + waitTime
      ({ st1 with requestCount := 1, requestWindow := now2 }, now2)
    else ({ st1 with requestCount := st1.requestCount + 1 }, now)
  else ({ st1 with requestCount := st1.requestCount + 1 }, now)

/-- The observable result of one successful `_request` call: the payload
returned, the state afterwards, and whether a network fetch happened. -/
structure ReqStep where
  payload : List StreamData
  st : ApiState
  network : Bool
  deriving DecidableEq, Repr

/-- The front of `TwitchAPI._request` on the success path (part_010 lines
347-367 and 426-431): `_checkRateLimit` runs first, then the cache keyed by
the full URL is consulted — a hit younger than `cacheTTL` is returned with no
fetch, an expired entry is deleted — and after a fetch the parsed body is
cached at the current time.  `fetched` is the body the network returns when a
fetch does happen. -/
def requestOnce (st : ApiState) (now : Nat) (url : String)
    (fetched : List StreamData) : ReqStep :=
  let rl := checkRateLimit st now
  let st1 := rl.1
  let now1 := rl.2
  match List.lookup url st1.cache with
  | some e =>
    if now1 - e.timestamp < 30000 then ⟨e.data, st1, false⟩
    else
      ⟨fetched,
       { st1 with cache := jsSet (eraseKey st1.cache url) url ⟨fetched, now1⟩ },
       true⟩
  | none =>
    ⟨fetched, { st1 with cache := jsSet st1.cache url ⟨fetched, now1⟩ }, true⟩

/-! ### `_request`: retry and error classification (part_010 lines 369-457) -/

/-- The retryable-code list of the catch clause:
`['SERVER_ERROR', 'TIMEOUT', 'NETWORK_ERROR'].includes(error.code)`. -/
def retryableCode (e : ApiError) : Bool :=
  e = .serverError || e = .timeout || e = .networkError

/-- The retry / error-classification behaviour of `TwitchAPI._request`, given
the outcome of each physical attempt (`env k` is attempt `k`).  The cache and
rate bookkeeping of the same function are modelled separately by
`requestOnce`; here every attempt reaches the network (no cached entry for the
URL).  Arguments: next attempt index, the `retries` parameter (an `Int`, since
the code decrements it below zero), and fuel.  The result is `none` when the
fuel runs out with the function still recursing, otherwise the settled result
paired with the next free attempt index (so `.2 = k` means exactly `k`
physical attempts happened).

Faithful details: a 429 with `retries > 0` re-enters `_request` from inside
the `try` block, so an error thrown by that inner call is caught by this
invocation's catch clause, which retries it if its code is retryable; a 429
with `retries ≤ 0` throws `RATE_LIMIT`, which the catch clause re-raises.
A 5xx throws `SERVER_ERROR`, and the catch clause's condition
`retries > 0 && !error.code || (error.code && retryable.includes(error.code))`
is true for it regardless of `retries`, so it always recurses.  An `AbortError`
(timeout) or a connection failure is converted and re-thrown by the catch
clause before the retry branch is reached, so it is never retried.  All other
codes are re-raised. -/
def requestRetryModel (env : Nat → AttemptOutcome) :
    Nat → Int → Nat → Option (Except ApiError (List StreamData) × Nat)
  | _, _, 0 => none
  | attempt, retries, fuel + 1 =>
    match env attempt with
    | .ok d => some (.ok d, attempt + 1)
    | .badJson => some (.error .parseError, attempt + 1)
    | .timeout => some (.error .timeout, attempt + 1)
    | .netfail => some (.error .networkError, attempt + 1)
    | .http code =>
      if code = 429 then
        if retries > 0 then
          match requestRetryModel env (attempt + 1) (retries - 1) fuel with
          | none => none
          | some (.ok d, a) => some (.ok d, a)
          | some (.error e, a) =>
            if retryableCode e then requestRetryModel env a (retries - 1) fuel
            else some (.error e, a)
        else some (.error .rateLimit, attempt + 1)
      else if code = 401 then some (.error .authError, attempt + 1)
      else if 500 ≤ code then requestRetryModel env (attempt + 1) (retries - 1) fuel
      else if code = 404 then some (.error .notFound, attempt + 1)
      else some (.error .apiError, attempt + 1)

/-! ## The background service worker (part_008 second revision, lines 369-1057) -/

/-- One stored channel entry, with the fields the poll cycle reads or writes. -/
structure StreamEntry where
  username : String
  priority : Int
  isLive : Bool
  wasLive : Bool
  deriving DecidableEq, Repr

/-- `[...streams].sort((a, b) => a.priority - b.priority)`: a stable ascending
sort by priority (ECMAScript `Array.prototype.sort` is stable; insertion sort
with `≤` is the same stable sort). -/
def sortByPriority (l : List StreamEntry) : List StreamEntry :=
  l.insertionSort (fun a b => a.priority ≤ b.priority)

/-- The liveness test of the reconciler loop,
`statuses[stream.username] !== null`: a present non-null entry is live, a
present `null` entry is offline, and an ABSENT key reads as `undefined`,
which is `!== null`, hence also counts as live. -/
def statusNotNull (statuses : List (String × Option StreamData)) (u : String) : Bool :=
  match List.lookup u statuses with
  | none => true
  | some none => false
  | some (some _) => true

/-- The target of one poll cycle (part_008 lines 626-646): the first entry of
the priority-sorted list whose status-map entry is `!== null`. -/
def computeTarget (statuses : List (String × Option StreamData))
    (channels : List StreamEntry) : Option StreamEntry :=
  (sortByPriority channels).find? (fun s => statusNotNull statuses s.username)

/-- The persisted settings fields the poll cycle reads.  `managedTwitchTabId`
is `none` for `null`/`undefined`; `fallbackCategory` is `""` when unset (both
`null` and the empty string are falsy where the code tests it). -/
structure Settings where
  redirectEnabled : Bool
  managedTwitchTabId : Option Nat
  fallbackCategory : String
  promptBeforeSwitch : Bool
  premiumStatus : Bool
  deriving DecidableEq, Repr

/-- The in-memory fallback runtime record `this.runtime.fallback`
(`updatedAt` is omitted: no claim reads it). -/
structure FallbackRun where
  active : Bool
  category : Option String
  username : Option String
  reason : Option String
  deriving DecidableEq, Repr

/-- The worker fields the poll cycle reads or writes. -/
structure WorkerState where
  settings : Settings
  currentWatchingStream : Option String
  fallback : FallbackRun
  deriving DecidableEq, Repr

/-- What `chrome.tabs.get` reports about one tab: whether
`tab.status === 'complete'`, and its URL. -/
structure TabInfo where
  complete : Bool
  url : Option ParsedUrl
  deriving DecidableEq, Repr

/-- The environment one poll cycle runs against: the tab table
(`chrome.tabs.get`, `none` = no such tab), the stored stream list, the status
map returned by the batch lookup, and the `user_login` of the stream
`getRandomStreamFromCategory` resolves to (`none` when it returns `null` or a
record without a `user_login`, or throws). -/
structure CycleEnv where
  tabs : Nat → Option TabInfo
  streams0 : List StreamEntry
  statuses : List (String × Option StreamData)
  randomUser : Option String

/-- The observable outcome of one poll cycle: the worker state afterwards,
whether `storage.saveSettings` ran, the `chrome.tabs.update` calls issued by
the switch path and by the fallback path (tab id and channel navigated to),
whether the fallback engine called `getRandomStreamFromCategory`
(a "reroll"), and whether a switch prompt notification was raised instead of
a redirect. -/
structure CycleOut where
  state : WorkerState
  savedSettings : Bool
  switchRedirects : List (Nat × String)
  fallbackRedirects : List (Nat × String)
  rerolled : Bool
  prompted : Bool

/-- `BackgroundWorker.shouldSwitchToStream` (part_008 lines 811-849).
`!managedTabId` is falsy-true for `null` and for tab id `0`.  Reaching the
URL inspection records the channel of the managed tab in
`currentWatchingStream`. -/
def shouldSwitchToStream (st : WorkerState) (env : CycleEnv) (target : StreamEntry) :
    Bool × WorkerState :=
  match st.settings.managedTwitchTabId with
  | none => (false, st)
  | some tid =>
    if tid = 0 then (false, st)
    else match env.tabs tid with
      | none => (false, st)
      | some tab =>
        if !tab.complete then (false, st)
        else if !isTwitchUrl tab.url then (false, st)
        else
          let watching := getChannelFromTwitchUrl tab.url
          let st1 := { st with currentWatchingStream := watching }
          if jsTruthyStr watching && watching = some target.username then (false, st1)
          else (true, st1)

/-- `BackgroundWorker.switchToStream` (part_008 lines 851-880), minus the
analytics increment: redirect the managed tab to the target's channel page. -/
def switchToStream (st : WorkerState) (env : CycleEnv) (uname : String) :
    WorkerState × List (Nat × String) :=
  match st.settings.managedTwitchTabId with
  | none => (st, [])
  | some tid =>
    if tid = 0 then (st, [])
    else match env.tabs tid with
      | none => (st, [])
      | some _ => ({ st with currentWatchingStream := some uname }, [(tid, uname)])

/-- `BackgroundWorker.handleAutoSwitch` (part_008 lines 751-767).  With
`promptBeforeSwitch` set, a notification is raised instead of a redirect. -/
def handleAutoSwitch (st : WorkerState) (env : CycleEnv) (target : Option StreamEntry) :
    WorkerState × List (Nat × String) × Bool :=
  match target with
  | none => (st, [], false)
  | some t =>
    let sw := shouldSwitchToStream st env t
    if sw.1 then
      if sw.2.settings.promptBeforeSwitch then (sw.2, [], true)
      else
        let done := switchToStream sw.2 env t.username
        ({ done.1 with currentWatchingStream := some t.username }, done.2, false)
    else (sw.2, [], false)

/-- `BackgroundWorker._handleCategoryFallbackInternal` (part_008 lines
886-947).  Returns the state, the redirect issued (if any), and whether
`getRandomStreamFromCategory` was called (a reroll attempt).  On a negative
reroll decision the runtime record is re-synced; on a reroll the runtime is
updated and the managed tab redirected, unless the category lookup resolves to
nothing. -/
def handleCategoryFallbackFn (st : WorkerState) (env : CycleEnv)
    (force : Bool) (reason : String) : WorkerState × List (Nat × String) × Bool :=
  if st.settings.fallbackCategory = "" then (st, [], false)
  else match st.settings.managedTwitchTabId with
    | none => (st, [], false)
    | some tid =>
      if tid = 0 then (st, [], false)
      else match env.tabs tid with
        | none => (st, [], false)
        | some tab =>
          if !isTwitchUrl tab.url then (st, [], false)
          else
            let currentChannel := getChannelFromTwitchUrl tab.url
            let reroll := shouldRerollCategoryFallback force st.fallback.active
                currentChannel st.fallback.category (some st.settings.fallbackCategory)
            if !reroll then
              ({ st with fallback :=
                  { active := true,
                    category := some st.settings.fallbackCategory,
                    username := if jsTruthyStr currentChannel then currentChannel
                                else st.fallback.username,
                    reason := some ((st.fallback.reason).getD "auto") } }, [], false)
            else
              match env.randomUser with
              | none => (st, [], true)
              | some ul =>
                if ul = "" then (st, [], true)
                else
                  let uname := jsToLower ul
                  ({ st with fallback :=
                      { active := true,
                        category := some st.settings.fallbackCategory,
                        username := some uname,
                        reason := some reason } },
                   [(tid, uname)], true)

/-- The body of `BackgroundWorker.pollStreams` (part_008 lines 601-709) after
the 5-second throttle (modelled separately by `timerPoll`), on the path where
the batch lookup succeeds and its result is `env.statuses`:

1. lines 602-617 — if Auto-Swap is enabled AND `managedTwitchTabId != null`
   but the tab no longer exists, clear both settings fields, persist them, and
   return;
2. lines 619-623 — an empty stream list ends the cycle;
3. lines 626-646 — sort by priority and find the highest-priority live stream;
4. lines 671-674 — a live target clears the fallback-active flag;
5. lines 696-699 — Auto-Swap: `handleAutoSwitch` runs only when
   `redirectEnabled`;
6. lines 701-704 — category fallback: runs when there is no live target and a
   fallback category is configured (note: `redirectEnabled` is NOT tested).

The notification, badge, stream-status persistence and analytics steps touch
nothing any claim mentions and are omitted. -/
def pollCycle (st0 : WorkerState) (env : CycleEnv) : CycleOut :=
  let guardDisable :=
    st0.settings.redirectEnabled &&
      (match st0.settings.managedTwitchTabId with
       | none => false
       | some tid => (env.tabs tid).isNone)
  if guardDisable then
    { state := { st0 with settings :=
        { st0.settings with redirectEnabled := false, managedTwitchTabId := none } },
      savedSettings := true, switchRedirects := [], fallbackRedirects := [],
      rerolled := false, prompted := false }
  else if env.streams0.isEmpty then
    { state := st0, savedSettings := false, switchRedirects := [],
      fallbackRedirects := [], rerolled := false, prompted := false }
  else
    let target := computeTarget env.statuses env.streams0
    let st1 := if target.isSome then
        { st0 with fallback := { st0.fallback with active := false } }
      else st0
    let auto := if st1.settings.redirectEnabled then handleAutoSwitch st1 env target
      else (st1, [], false)
    let fb := if target.isNone && st1.settings.fallbackCategory ≠ "" then
        handleCategoryFallbackFn auto.1 env false "auto"
      else (auto.1, [], false)
    { state := fb.1, savedSettings := false, switchRedirects := auto.2.1,
      fallbackRedirects := fb.2.1, rerolled := fb.2.2, prompted := auto.2.2 }

/-! ## The poll throttle (part_008 lines 489-495 and 594-599) -/

/-- The only scheduler state the throttle reads: `this.lastPollTime`. -/
structure SchedState where
  lastPollTime : Nat
  deriving DecidableEq, Repr

/-- The throttle at the top of `pollStreams`: a trigger less than 5000 ms
after `lastPollTime` is dropped; otherwise the cycle executes and
`lastPollTime` becomes `now`.  The `Bool` is whether the cycle executed. -/
def timerPoll (st : SchedState) (now : Nat) : SchedState × Bool :=
  if now - st.lastPollTime < 5000 then (st, false)
  else ({ lastPollTime := now }, true)

/-- `BackgroundWorker.forcePollNow`: sets `this.lastPollTime = 0`
("Bypass 5s throttle") and then calls `pollStreams`. -/
def forcePoll (st : SchedState) (now : Nat) : SchedState × Bool :=
  timerPoll { st with lastPollTime := 0 } now

/-! ## Concrete fixtures used by the claim theorems -/

/-- The channel list of the spec's target-selection example:
`[{a,1,offline},{b,2,live},{c,3,live}]`. -/
def exChannels : List StreamEntry :=
  [⟨"a", 1, false, false⟩, ⟨"b", 2, true, false⟩, ⟨"c", 3, true, false⟩]

/-- The status map of the example: `a` offline (`null`), `b` and `c` live. -/
def exStatuses : List (String × Option StreamData) :=
  [("a", none), ("b", some ⟨"b"⟩), ("c", some ⟨"c"⟩)]

/-- The expected target of the example: channel `b`. -/
def exTargetB : StreamEntry := ⟨"b", 2, true, false⟩

/-- Batch environment for the C1 counterexample: the one physical request
succeeds and reports `abcd` live. -/
def c1Env : Nat → BatchOutcome := fun _ => .ok [⟨"abcd"⟩]

/-- A channel whose username fails the username regex (`!` is not allowed),
so the batch lookup drops it from the status map. -/
def c1BadEntry : StreamEntry := ⟨"ab!", 1, false, false⟩

/-- A valid lower-priority channel that is live. -/
def c1GoodEntry : StreamEntry := ⟨"abcd", 2, false, false⟩

/-- The status map the batch lookup returns for
`["ab!", "abcd"]` under `c1Env`: it has no entry at all for `ab!`. -/
def c1Statuses : List (String × Option StreamData) := [("abcd", some ⟨"abcd"⟩)]

/-- Worker state for the C2 counterexample: Auto-Swap enabled with no managed
tab id — the storage defaults (`redirectEnabled: true`, no
`managedTwitchTabId`) produce exactly this state. -/
def c2State : WorkerState :=
  { settings := { redirectEnabled := true, managedTwitchTabId := none,
                  fallbackCategory := "", promptBeforeSwitch := false,
                  premiumStatus := false },
    currentWatchingStream := none,
    fallback := ⟨false, none, none, none⟩ }

/-- Environment for the C2 counterexample (no stored streams). -/
def c2Env : CycleEnv :=
  { tabs := fun _ => none, streams0 := [], statuses := [], randomUser := none }

/-- 101 channel names: one batch of 100 plus one of 1. -/
def c4Names : List String := List.replicate 100 "aaaa" ++ ["bbbb"]

/-- Batch environment for the C4 counterexample: the first physical request
fails with a 401 (`AUTH_ERROR`), the second with a 5xx (`SERVER_ERROR`). -/
def c4Env : Nat → BatchOutcome :=
  fun i => if i = 0 then .err .authError else .err .serverError

/-- Worker state for the C6 counterexample: Auto-Swap DISABLED, yet a managed
tab id is set and a fallback category is configured. -/
def c6State : WorkerState :=
  { settings := { redirectEnabled := false, managedTwitchTabId := some 1,
                  fallbackCategory := "Just Chatting", promptBeforeSwitch := false,
                  premiumStatus := false },
    currentWatchingStream := none,
    fallback := ⟨false, none, none, none⟩ }

/-- Environment for the C6 counterexample: tab 1 is a fully loaded Twitch
directory page, the single tracked channel is offline, and the category lookup
resolves to the streamer `XyZw`. -/
def c6Env : CycleEnv :=
  { tabs := fun t => if t = 1 then some ⟨true, some ⟨"www.twitch.tv", "/directory"⟩⟩ else none,
    streams0 := [⟨"abcd", 1, false, false⟩],
    statuses := [("abcd", none)],
    randomUser := some "XyZw" }

/-- Client state for the C7 counterexample: a cache entry for `"u"` fetched at
t = 100000 ms, request counter 5, window started at t = 99000 ms. -/
def c7State : ApiState :=
  { cache := [("u", ⟨[⟨"aaaa"⟩], 100000⟩)], requestCount := 5, requestWindow := 99000 }

/-! ## Helper lemmas -/

theorem lookup_jsSet {α : Type} (m : List (String × α)) (k x : String) (v : α) :
    List.lookup x (jsSet m k v) = if x = k then some v else List.lookup x m := by
  induction m with
  | nil =>
    by_cases hx : x = k
    · subst hx
      simp [jsSet, List.lookup]
    · simp [jsSet, List.lookup, beq_false_of_ne hx, hx]
  | cons h t ih =>
    obtain ⟨k', v'⟩ := h
    by_cases hk : k' = k
    · subst hk
      by_cases hx : x = k'
      · subst hx
        simp [jsSet, List.lookup]
      · simp [jsSet, List.lookup, beq_false_of_ne hx, hx]
    · by_cases hx : x = k'
      · subst hx
        have hxk : ¬ x = k := hk
        simp [jsSet, hk, List.lookup, hxk]
    
      · simp [jsSet, hk, List.lookup, beq_false_of_ne hx, ih]

theorem lookup_foldl_assign {α : Type} (v : String → α) (batch : List String)
    (r0 : List (String × α)) (x : String) :
    List.lookup x (batch.foldl (fun r u => jsSet r u (v u)) r0) =
      if x ∈ batch then some (v x) else List.lookup x r0 := by
  induction batch generalizing r0 with
  | nil => simp
  | cons u rest ih =>
    simp only [List.foldl_cons, ih, lookup_jsSet]
    by_cases hx : x ∈ rest
    · simp [hx]
    · by_cases hxu : x = u
      · subst hxu
        simp [hx]
      · simp [hx, hxu]

theorem sortByPriority_sorted (l : List StreamEntry) :
    List.Pairwise (fun a b : StreamEntry => a.priority ≤ b.priority) (sortByPriority l) := by
  haveI : IsTotal StreamEntry (fun a b : StreamEntry => a.priority ≤ b.priority) :=
    ⟨fun a b => le_total _ _⟩
  haveI : IsTrans StreamEntry (fun a b : StreamEntry => a.priority ≤ b.priority) :=
    ⟨fun a b c => le_trans⟩
  exact List.sorted_insertionSort _ l

theorem sortByPriority_perm (l : List StreamEntry) : (sortByPriority l).Perm l :=
  List.perm_insertionSort _ l

theorem find?_min_priority (l : List StreamEntry) (p : StreamEntry → Bool) (t : StreamEntry)
    (hs : List.Pairwise (fun a b : StreamEntry => a.priority ≤ b.priority) l)
    (ht : l.find? p = some t) :
    ∀ x ∈ l, p x = true → t.priority ≤ x.priority := by
  induction l with
  | nil => simp at ht
  | cons a rest ih =>
    rw [List.find?_cons] at ht
    rcases List.pairwise_cons.mp hs with ⟨ha, hrest⟩
    intro x hx hpx
    by_cases hpa : p a = true
    · rw [hpa] at ht
      cases ht
      rcases List.mem_cons.mp hx with h | h
      · exact h ▸ le_refl _
      · exact ha x h
    · rw [Bool.not_eq_true] at hpa
      rw [hpa] at ht
      rcases List.mem_cons.mp hx with h | h
      · subst h
        rw [hpx] at hpa
        cases hpa
      · exact ih hrest ht x h hpx

/-! ## C1 — target selection -/

/-- C1, counterexample.  The claim says the target of a cycle is the channel
with the lowest priority number among those whose status-map entry is
non-null.  For the channel list `[{ab!,1},{abcd,2}]` the batch lookup itself
returns a map with no entry at all for the invalid name `ab!` (only `abcd`
has a — non-null — entry), yet the cycle's target is `ab!`: the reconciler
tests `statuses[u] !== null`, and an absent key reads `undefined`, which is
`!== null`.  The claim would require the target to be `abcd`. -/
theorem C1_counterexample :
    checkStreamsStatus c1Env (some ["ab!", "abcd"]) = .ok c1Statuses ∧
    computeTarget c1Statuses [c1BadEntry, c1GoodEntry] = some c1BadEntry ∧
    List.lookup c1BadEntry.username c1Statuses = none ∧
    List.lookup c1GoodEntry.username c1Statuses = some (some ⟨"abcd"⟩) :=
  ⟨rfl, rfl, rfl, rfl⟩

/-- C1, amended: the target of a cycle is the lowest-priority channel whose
status-map entry is non-null OR ABSENT (`statuses[u] !== null`; a channel
missing from the map counts as live), and it is null exactly when every
channel's entry is present and null.  In particular for the channels
`[{a,1,offline},{b,2,live},{c,3,live}]` the target is `b`. -/
theorem C1_target_selection :
    (∀ (channels : List StreamEntry) (statuses : List (String × Option StreamData))
        (t : StreamEntry),
        computeTarget statuses channels = some t →
        t ∈ channels ∧ statusNotNull statuses t.username = true ∧
          ∀ s ∈ channels, statusNotNull statuses s.username = true →
            t.priority ≤ s.priority) ∧
    (∀ (channels : List StreamEntry) (statuses : List (String × Option StreamData)),
        computeTarget statuses channels = none →
        ∀ s ∈ channels, List.lookup s.username statuses = some none) ∧
    computeTarget exStatuses exChannels = some exTargetB := by
  refine ⟨?_, ?_, by decide⟩
  · intro channels statuses t ht
    simp only [computeTarget] at ht
    have hperm := sortByPriority_perm channels
    have hpt := List.find?_some ht
    refine ⟨hperm.mem_iff.mp (List.mem_of_find?_eq_some ht), hpt, ?_⟩
    intro s hs hlive
    exact find?_min_priority _ _ t (sortByPriority_sorted channels) ht s
      (hperm.mem_iff.mpr hs) hlive
  · intro channels statuses hnone s hs
    simp only [computeTarget] at hnone
    have hx := List.find?_eq_none.mp hnone s ((sortByPriority_perm channels).mem_iff.mpr hs)
    cases hlk : List.lookup s.username statuses with
    | none =>
      exfalso
      apply hx
      show statusNotNull statuses s.username = true
      rw [statusNotNull, hlk]
    | some v =>
      cases v with
      | none => rfl
      | some d =>
        exfalso
        apply hx
        show statusNotNull statuses s.username = true
        rw [statusNotNull, hlk]

/-- C1, witness for the amended theorem at the spec's example. -/
theorem C1_target_selection_witness :
    computeTarget exStatuses exChannels = some exTargetB ∧
    (exTargetB ∈ exChannels ∧ statusNotNull exStatuses exTargetB.username = true ∧
      ∀ s ∈ exChannels, statusNotNull exStatuses s.username = true →
        exTargetB.priority ≤ s.priority) :=
  ⟨by decide, C1_target_selection.1 exChannels exStatuses exTargetB (by decide)⟩

/-! ## C3 — minimum poll spacing -/

/-- C3, counterexample.  A timer cycle executes at t=100000, and a forced poll
only 1000 ms later (`forcePollNow` sets `lastPollTime = 0`, the code comment
reads "Bypass 5s throttle") executes as well: two executed cycles within the
5-second floor, where the claim allows exactly one. -/
theorem C3_counterexample :
    timerPoll ⟨0⟩ 100000 = (⟨100000⟩, true) ∧
    forcePoll ⟨100000⟩ 101000 = (⟨101000⟩, true) ∧
    101000 - 100000 < 5000 := by
  decide

/-- C3, amended: timer-triggered polls respect the 5-second floor — a trigger
less than 5000 ms after the last executed cycle is dropped, so two TIMER
triggers within the floor produce exactly one executed cycle — but a forced
poll (`TSR_FORCE_POLL` → `forcePollNow`) resets `lastPollTime` to 0 before
polling and therefore executes regardless of how recently the previous cycle
started (for any wall-clock time ≥ 5000 ms). -/
theorem C3_min_spacing :
    (∀ (s : SchedState) (now : Nat), now - s.lastPollTime < 5000 →
        timerPoll s now = (s, false)) ∧
    (∀ (s : SchedState) (t1 t2 : Nat), (timerPoll s t1).2 = true → t2 - t1 < 5000 →
        (timerPoll (timerPoll s t1).1 t2).2 = false) ∧
    (∀ (s : SchedState) (now : Nat), 5000 ≤ now → forcePoll s now = (⟨now⟩, true)) := by
  refine ⟨?_, ?_, ?_⟩
  · intro s now h
    simp [timerPoll, h]
  · intro s t1 t2 h1 h2
    by_cases hc : t1 - s.lastPollTime < 5000
    · simp [timerPoll, hc] at h1
    · simp [timerPoll, hc, h2]
  · intro s now h
    have hnot : ¬ now - 0 < 5000 := by omega
    simp [forcePoll, timerPoll, hnot]
    omega

/-- C3, witness for the amended theorem. -/
theorem C3_min_spacing_witness :
    (101000 - 100000 < 5000 ∧ timerPoll ⟨100000⟩ 101000 = (⟨100000⟩, false)) ∧
    (5000 ≤ 101000 ∧ forcePoll ⟨100000⟩ 101000 = (⟨101000⟩, true)) :=
  ⟨⟨by decide, C3_min_spacing.1 ⟨100000⟩ 101000 (by decide)⟩,
   ⟨by decide, C3_min_spacing.2.2 ⟨100000⟩ 101000 (by decide)⟩⟩

/-! ## C5 — the reroll decision -/

/-- C5, counterexample.  The claim says the function returns true whenever the
configured category differs case-insensitively from the runtime category.
With `force=false, active=true, currentChannel="x", runtimeCategory=null,
settingsCategory="A"` the two categories differ (`"a"` vs `""`), so the claim
requires true; the code requires BOTH trimmed categories to be non-empty
before comparing, skips the branch, and returns false. -/
theorem C5_counterexample :
    claimedShouldReroll false true (some "x") none (some "A") = true ∧
    shouldRerollCategoryFallback false true (some "x") none (some "A") = false := by
  decide

/-- C5, amended: `shouldRerollCategoryFallback` returns true whenever `force`;
otherwise it returns true whenever BOTH the configured and the runtime
category are non-empty after trimming and differ case-insensitively;
otherwise it returns false when fallback is active and the surface is on a
channel page (`currentChannel` truthy); in every remaining case it returns
true. -/
theorem C5_reroll_decision :
    (∀ (a : Bool) (cc rc sc : Option String),
        shouldRerollCategoryFallback true a cc rc sc = true) ∧
    (∀ (a : Bool) (cc rc sc : Option String), catChanged rc sc = true →
        shouldRerollCategoryFallback false a cc rc sc = true) ∧
    (∀ (a : Bool) (cc rc sc : Option String), catChanged rc sc = false →
        a = true → jsTruthyStr cc = true →
        shouldRerollCategoryFallback false a cc rc sc = false) ∧
    (∀ (a : Bool) (cc rc sc : Option String), catChanged rc sc = false →
        (a && jsTruthyStr cc) = false →
        shouldRerollCategoryFallback false a cc rc sc = true) := by
  refine ⟨?_, ?_, ?_, ?_⟩
  · intro a cc rc sc
    simp [shouldRerollCategoryFallback]
  · intro a cc rc sc h
    simp [shouldRerollCategoryFallback, h]
  · intro a cc rc sc h ha hcc
    simp [shouldRerollCategoryFallback, h, ha, hcc]
  · intro a cc rc sc h hb
    simp [shouldRerollCategoryFallback, h, hb]

/-- C5, witness: the spec's own no-flap test
`shouldReroll(false, active, "x", "A", "A") = false` and the force test. -/
theorem C5_reroll_decision_witness :
    (catChanged (some "A") (some "A") = false ∧ true = true ∧
      jsTruthyStr (some "x") = true ∧
      shouldRerollCategoryFallback false true (some "x") (some "A") (some "A") = false) ∧
    shouldRerollCategoryFallback true false none none none = true :=
  ⟨⟨by decide, rfl, by decide,
    C5_reroll_decision.2.2.1 true (some "x") (some "A") (some "A") (by decide) rfl (by decide)⟩,
   C5_reroll_decision.1 false none none none⟩

/-! ## C7 — cache TTL and the request counter -/

/-- C7, counterexample.  The claim says a TTL-fresh cache hit does not
increment the per-minute request counter.  `_request` calls `_checkRateLimit`
— which ends in `this.requestCount++` — BEFORE consulting the cache, so the
hit at t=101000 on an entry fetched at t=100000 makes no network call yet
raises the counter from 5 to 6. -/
theorem C7_counterexample :
    (requestOnce c7State 101000 "u" []).network = false ∧
    (requestOnce c7State 101000 "u" []).st.requestCount = 6 ∧
    c7State.requestCount = 5 := by
  decide

/-- C7, amended: a request whose exact URL has a cached response younger than
the 30-second TTL is served from the cache with no network call, but the
per-minute request counter is STILL incremented (the rate-limit bookkeeping
runs before the cache lookup); after the TTL expires a new network call is
made and counted.  (Hypotheses pin the rate window: the 60s window has not
rolled over and the counter is below the 800 ceiling, so no sleep or reset
intervenes.) -/
theorem C7_cache_ttl :
    (∀ (st : ApiState) (now : Nat) (url : String) (fetched : List StreamData)
        (e : CacheEntry),
        List.lookup url st.cache = some e →
        now - st.requestWindow ≤ 60000 → st.requestCount < 800 →
        now - e.timestamp < 30000 →
        requestOnce st now url fetched =
          ⟨e.data, { st with requestCount := st.requestCount + 1 }, false⟩) ∧
    (∀ (st : ApiState) (now : Nat) (url : String) (fetched : List StreamData)
        (e : CacheEntry),
        List.lookup url st.cache = some e →
        now - st.requestWindow ≤ 60000 → st.requestCount < 800 →
        ¬ now - e.timestamp < 30000 →
        (requestOnce st now url fetched).network = true ∧
        (requestOnce st now url fetched).payload = fetched ∧
        (requestOnce st now url fetched).st.requestCount = st.requestCount + 1) := by
  constructor
  · intro st now url fetched e he hw hcount hfresh
    have h1 : ¬ now - st.requestWindow > 60000 := by omega
    have h2 : ¬ st.requestCount ≥ 800 := by omega
    simp [requestOnce, checkRateLimit, h1, h2, he, hfresh]
  · intro st now url fetched e he hw hcount hstale
    have h1 : ¬ now - st.requestWindow > 60000 := by omega
    have h2 : ¬ st.requestCount ≥ 800 := by omega
    simp [requestOnce, checkRateLimit, h1, h2, he, hstale]

/-- C7, witness for the amended theorem: the fresh-hit case at the concrete
state of the counterexample, and the expired case 31 s after the fetch. -/
theorem C7_cache_ttl_witness :
    (List.lookup "u" c7State.cache = some ⟨[⟨"aaaa"⟩], 100000⟩ ∧
      101000 - c7State.requestWindow ≤ 60000 ∧ c7State.requestCount < 800 ∧
      101000 - 100000 < 30000 ∧
      requestOnce c7State 101000 "u" [] =
        ⟨[⟨"aaaa"⟩], { c7State with requestCount := c7State.requestCount + 1 }, false⟩) ∧
    ((requestOnce c7State 131000 "u" []).network = true ∧
      (requestOnce c7State 131000 "u" []).payload = [] ∧
      (requestOnce c7State 131000 "u" []).st.requestCount = c7State.requestCount + 1) :=
  ⟨⟨by decide, by decide, by decide, by decide,
    C7_cache_ttl.1 c7State 101000 "u" [] ⟨[⟨"aaaa"⟩], 100000⟩
      (by decide) (by decide) (by decide) (by decide)⟩,
   C7_cache_ttl.2 c7State 131000 "u" [] ⟨[⟨"aaaa"⟩], 100000⟩
      (by decide) (by decide) (by decide) (by decide)⟩

/-! ## C2 — missing managed surface -/

theorem shouldSwitchToStream_settings (st : WorkerState) (env : CycleEnv) (t : StreamEntry) :
    (shouldSwitchToStream st env t).2.settings = st.settings := by
  unfold shouldSwitchToStream
  repeat' split
  all_goals try rfl
  all_goals dsimp only
  all_goals split <;> rfl

theorem switchToStream_settings (st : WorkerState) (env : CycleEnv) (uname : String) :
    (switchToStream st env uname).1.settings = st.settings := by
  unfold switchToStream
  repeat' split
  all_goals rfl

theorem handleAutoSwitch_settings (st : WorkerState) (env : CycleEnv)
    (target : Option StreamEntry) :
    (handleAutoSwitch st env target).1.settings = st.settings := by
  unfold handleAutoSwitch
  cases target with
  | none => rfl
  | some t =>
    dsimp only
    split
    · split
      · exact shouldSwitchToStream_settings st env t
      · dsimp only
        rw [switchToStream_settings, shouldSwitchToStream_settings]
    · exact shouldSwitchToStream_settings st env t

theorem handleAutoSwitch_nomanaged (st : WorkerState) (env : CycleEnv)
    (target : Option StreamEntry) (h : st.settings.managedTwitchTabId = none) :
    handleAutoSwitch st env target = (st, [], false) := by
  cases target <;> simp [handleAutoSwitch, shouldSwitchToStream, h]

theorem handleCategoryFallback_nomanaged (st : WorkerState) (env : CycleEnv)
    (force : Bool) (reason : String) (h : st.settings.managedTwitchTabId = none) :
    handleCategoryFallbackFn st env force reason = (st, [], false) := by
  unfold handleCategoryFallbackFn
  split
  · rfl
  · simp [h]

/-- C2, counterexample.  The claim says that whenever auto-switch is on and
the managed tab id is UNSET, the cycle clears both `redirectEnabled` and
`managedTwitchTabId` and persists the settings.  In the state produced by the
storage defaults (`redirectEnabled: true`, `managedTwitchTabId: null`) the
guard at the top of `pollStreams` tests `managedTwitchTabId != null` and skips
the whole disable block, so the cycle ends with `redirectEnabled` still true
and no settings write. -/
theorem C2_counterexample :
    c2State.settings.redirectEnabled = true ∧
    c2State.settings.managedTwitchTabId = none ∧
    (pollCycle c2State c2Env).state.settings.redirectEnabled = true ∧
    (pollCycle c2State c2Env).savedSettings = false := by
  refine ⟨rfl, rfl, rfl, rfl⟩

/-- C2, amended: with auto-switch on and a managed tab id that is SET but
refers to a tab that no longer exists, the cycle clears both `redirectEnabled`
and `managedTwitchTabId`, persists the settings, and performs no redirect.
When the id is UNSET, the cycle performs no redirect either, but the settings
are left untouched (no force-disable). -/
theorem C2_missing_surface :
    (∀ (st : WorkerState) (env : CycleEnv) (tid : Nat),
        st.settings.redirectEnabled = true →
        st.settings.managedTwitchTabId = some tid →
        env.tabs tid = none →
        (pollCycle st env).state.settings.redirectEnabled = false ∧
        (pollCycle st env).state.settings.managedTwitchTabId = none ∧
        (pollCycle st env).savedSettings = true ∧
        (pollCycle st env).switchRedirects = [] ∧
        (pollCycle st env).fallbackRedirects = []) ∧
    (∀ (st : WorkerState) (env : CycleEnv),
        st.settings.managedTwitchTabId = none →
        (pollCycle st env).switchRedirects = [] ∧
        (pollCycle st env).fallbackRedirects = [] ∧
        (pollCycle st env).state.settings = st.settings ∧
        (pollCycle st env).savedSettings = false) := by
  constructor
  · intro st env tid h1 h2 h3
    simp [pollCycle, h1, h2, h3]
  · intro st env h
    have hguard : (st.settings.redirectEnabled &&
        match st.settings.managedTwitchTabId with
        | none => false
        | some tid => (env.tabs tid).isNone) = false := by
      rw [h]
      simp
    have hA : ∀ (s : WorkerState), s.settings = st.settings →
        ∀ tgt, handleAutoSwitch s env tgt = (s, [], false) := by
      intro s hs tgt
      apply handleAutoSwitch_nomanaged
      rw [hs, h]
    have hF : ∀ (s : WorkerState), s.settings = st.settings →
        handleCategoryFallbackFn s env false "auto" = (s, [], false) := by
      intro s hs
      apply handleCategoryFallback_nomanaged
      rw [hs, h]
    simp only [pollCycle, hguard, Bool.false_eq_true, if_false]
    by_cases hempty : env.streams0.isEmpty
    · simp [hempty]
    · simp only [hempty, Bool.false_eq_true, if_false]
      cases htar : computeTarget env.statuses env.streams0 with
      | none =>
        simp only [htar, Option.isSome_none, Bool.false_eq_true, if_false,
          Option.isNone_none, Bool.true_and]
        rw [hA st rfl none, ite_self]
        rw [hF st rfl, ite_self]
        simp
      | some t =>
        simp only [htar, Option.isSome_some, if_true, Option.isNone_some,
          Bool.false_and, Bool.false_eq_true, if_false]
        rw [hA { st with fallback := { st.fallback with active := false } } rfl (some t),
          ite_self]
        simp

/-- C2, witness for the amended theorem: part one at a concrete state whose
managed tab 7 is gone, part two at the defaults state. -/
theorem C2_missing_surface_witness :
    ((pollCycle { c2State with settings :=
        { c2State.settings with managedTwitchTabId := some 7 } } c2Env).state.settings.redirectEnabled = false ∧
      (pollCycle { c2State with settings :=
        { c2State.settings with managedTwitchTabId := some 7 } } c2Env).savedSettings = true) ∧
    ((pollCycle c2State c2Env).switchRedirects = [] ∧
      (pollCycle c2State c2Env).state.settings = c2State.settings) := by
  have h1 := C2_missing_surface.1
    { c2State with settings := { c2State.settings with managedTwitchTabId := some 7 } }
    c2Env 7 rfl rfl rfl
  have h2 := C2_missing_surface.2 c2State c2Env rfl
  exact ⟨⟨h1.1, h1.2.2.1⟩, ⟨h2.1, h2.2.2.1⟩⟩

/-! ## C6 — when the fallback engine runs -/

theorem handleCategoryFallback_guards (st : WorkerState) (env : CycleEnv)
    (force : Bool) (reason : String)
    (h : (handleCategoryFallbackFn st env force reason).2.2 = true ∨
      (handleCategoryFallbackFn st env force reason).2.1 ≠ []) :
    st.settings.fallbackCategory ≠ "" ∧
    ∃ tid tab, st.settings.managedTwitchTabId = some tid ∧ env.tabs tid = some tab ∧
      isTwitchUrl tab.url = true := by
  unfold handleCategoryFallbackFn at h
  split at h
  case isTrue => simp at h
  case isFalse hcat =>
    split at h
    case h_1 heq => simp at h
    case h_2 tid heq =>
      split at h
      case isTrue => simp at h
      case isFalse h0 =>
        split at h
        case h_1 heq2 => simp at h
        case h_2 tab heq2 =>
          split at h
          case isTrue => simp at h
          case isFalse htw =>
            refine ⟨hcat, tid, tab, heq, heq2, ?_⟩
            simpa using htw

/-- C6, counterexample.  The claim requires auto-switch to be enabled for the
fallback engine to run.  With auto-switch DISABLED but a managed Twitch tab
and a fallback category configured, a cycle in which the single tracked
channel is offline still rerolls and redirects the managed tab: the guard at
part_008 line 702 tests only `!highestPriorityLive && settings.fallbackCategory`
and never `redirectEnabled`. -/
theorem C6_counterexample :
    c6State.settings.redirectEnabled = false ∧
    (pollCycle c6State c6Env).rerolled = true ∧
    (pollCycle c6State c6Env).fallbackRedirects = [(1, "xyzw")] := by
  refine ⟨rfl, rfl, rfl⟩

/-- C6, amended: a poll cycle attempts a fallback reroll or fallback redirect
only when (b) no tracked channel is live, (c) a fallback category is
configured, and (d) the managed surface id is set and refers to an existing
tab on a page of the tracked service — but condition (a) of the claim,
auto-switch enabled, is NOT required by the code (it matters only indirectly:
when auto-switch is enabled and the managed tab is missing, the cycle aborts
before the fallback step). -/
theorem C6_fallback_conditions :
    ∀ (st : WorkerState) (env : CycleEnv),
      (pollCycle st env).rerolled = true ∨ (pollCycle st env).fallbackRedirects ≠ [] →
      computeTarget env.statuses env.streams0 = none ∧
      st.settings.fallbackCategory ≠ "" ∧
      ∃ tid tab, st.settings.managedTwitchTabId = some tid ∧ env.tabs tid = some tab ∧
        isTwitchUrl tab.url = true := by
  intro st env h
  unfold pollCycle at h
  dsimp only at h
  by_cases hguard : (st.settings.redirectEnabled &&
      match st.settings.managedTwitchTabId with
      | none => false
      | some tid => (env.tabs tid).isNone) = true
  · rw [if_pos hguard] at h
    simp at h
  · rw [if_neg hguard] at h
    by_cases hempty : env.streams0.isEmpty = true
    · rw [if_pos hempty] at h
      simp at h
    · rw [if_neg hempty] at h
      cases htar : computeTarget env.statuses env.streams0 with
      | some t =>
        rw [htar] at h
        simp at h
      | none =>
        rw [htar] at h
        simp only [Option.isSome_none, Bool.false_eq_true, if_false,
          Option.isNone_none, Bool.true_and] at h
        have haun : handleAutoSwitch st env none = (st, [], false) := rfl
        rw [haun, ite_self] at h
        dsimp only at h
        split at h
        · exact ⟨rfl, handleCategoryFallback_guards st env false "auto" h⟩
        · simp at h

/-- C6, witness for the amended theorem, at the counterexample input. -/
theorem C6_fallback_conditions_witness :
    (pollCycle c6State c6Env).rerolled = true ∧
    (computeTarget c6Env.statuses c6Env.streams0 = none ∧
      c6State.settings.fallbackCategory ≠ "" ∧
      ∃ tid tab, c6State.settings.managedTwitchTabId = some tid ∧
        c6Env.tabs tid = some tab ∧ isTwitchUrl tab.url = true) :=
  ⟨by decide, C6_fallback_conditions c6State c6Env (Or.inl (by decide))⟩

/-! ## Batch-loop lemmas (for C4, C9, C10) -/

theorem processBatch_lookup (env : Nat → BatchOutcome) (i : Nat) (b : List String)
    (acc : BatchAcc) (u : String) :
    List.lookup u (processBatch env i b acc).results =
      if u ∈ b then some (batchVal env i u) else List.lookup u acc.results := by
  unfold processBatch batchVal
  cases env i with
  | ok payload =>
    exact lookup_foldl_assign (fun x => List.lookup (jsToLower x) (buildLiveStreams payload))
      b acc.results u
  | err e =>
    exact lookup_foldl_assign (fun _ => none) b acc.results u

theorem lastAssign_not_mem (env : Nat → BatchOutcome) (bs : List (List String))
    (u : String) (h : ∀ b ∈ bs, u ∉ b) :
    ∀ (i : Nat) (acc : Option (Option StreamData)), lastAssign env bs i u acc = acc := by
  induction bs with
  | nil => intro i acc; rfl
  | cons b rest ih =>
    intro i acc
    have hub : u ∉ b := h b (List.mem_cons_self b rest)
    simp only [lastAssign, if_neg hub]
    exact ih (fun b' hb' => h b' (List.mem_cons_of_mem _ hb')) (i + 1) acc

theorem lastAssign_shift (env : Nat → BatchOutcome) (bs : List (List String)) (u : String) :
    ∀ (i : Nat) (acc : Option (Option StreamData)),
    lastAssign env bs i u acc =
      match lastAssign env bs i u none with
      | some v => some v
      | none => acc := by
  induction bs with
  | nil => intro i acc; rfl
  | cons b rest ih =>
    intro i acc
    simp only [lastAssign]
    by_cases hu : u ∈ b
    · simp only [if_pos hu]
      rw [ih (i + 1) (some (batchVal env i u))]
      cases lastAssign env rest (i + 1) u none <;> rfl
    · simp only [if_neg hu]
      exact ih (i + 1) acc

theorem runBatches_results_lookup (env : Nat → BatchOutcome) (bs : List (List String))
    (u : String) :
    ∀ (i : Nat) (acc : BatchAcc),
    List.lookup u (runBatches env bs i acc).results =
      match lastAssign env bs i u none with
      | some v => some v
      | none => List.lookup u acc.results := by
  induction bs with
  | nil => intro i acc; rfl
  | cons b rest ih =>
    intro i acc
    simp only [runBatches, lastAssign]
    rw [ih]
    by_cases hu : u ∈ b
    · rw [if_pos hu, lastAssign_shift env rest u (i + 1) (some (batchVal env i u))]
      cases lastAssign env rest (i + 1) u none with
      | some v => rfl
      | none =>
        rw [processBatch_lookup, if_pos hu]
    · rw [if_neg hu]
      cases lastAssign env rest (i + 1) u none with
      | some v => rfl
      | none =>
        rw [processBatch_lookup, if_neg hu]

theorem runBatches_lastError (env : Nat → BatchOutcome) (bs : List (List String)) :
    ∀ (i : Nat) (acc : BatchAcc),
    (runBatches env bs i acc).lastError = lastFailure env bs i acc.lastError := by
  induction bs with
  | nil => intro i acc; rfl
  | cons b rest ih =>
    intro i acc
    simp only [runBatches, lastFailure]
    rw [ih]
    cases henv : env i <;> simp [processBatch, henv]

theorem runBatches_hasError (env : Nat → BatchOutcome) (bs : List (List String)) :
    ∀ (i : Nat) (acc : BatchAcc),
    (runBatches env bs i acc).hasError = (acc.hasError || anyFail env bs i) := by
  induction bs with
  | nil => intro i acc; simp [runBatches, anyFail]
  | cons b rest ih =>
    intro i acc
    simp only [runBatches, anyFail]
    rw [ih]
    cases henv : env i <;> simp [processBatch, henv]

theorem lastFailure_isSome (env : Nat → BatchOutcome) (bs : List (List String)) :
    ∀ (i : Nat) (acc : Option ApiError),
    (lastFailure env bs i acc).isSome = (acc.isSome || anyFail env bs i) := by
  induction bs with
  | nil => intro i acc; simp [lastFailure, anyFail]
  | cons b rest ih =>
    intro i acc
    simp only [lastFailure, anyFail]
    rw [ih]
    cases henv : env i <;> simp

theorem lastAssign_isSome_mono (env : Nat → BatchOutcome) (bs : List (List String))
    (u : String) :
    ∀ (i : Nat) (acc : Option (Option StreamData)),
    acc.isSome = true → (lastAssign env bs i u acc).isSome = true := by
  induction bs with
  | nil => intro i acc h; exact h
  | cons b rest ih =>
    intro i acc h
    simp only [lastAssign]
    by_cases hu : u ∈ b
    · rw [if_pos hu]
      exact ih (i + 1) _ rfl
    · rw [if_neg hu]
      exact ih (i + 1) acc h

theorem lastAssign_isSome_of_mem (env : Nat → BatchOutcome) (bs : List (List String))
    (u : String) :
    ∀ (i : Nat) (acc : Option (Option StreamData)),
    (∃ j : Nat, ∃ b : List String, bs[j]? = some b ∧ u ∈ b) →
    (lastAssign env bs i u acc).isSome = true := by
  induction bs with
  | nil =>
    intro i acc h
    obtain ⟨j, b, hj, _⟩ := h
    simp at hj
  | cons b0 rest ih =>
    intro i acc h
    simp only [lastAssign]
    by_cases hu : u ∈ b0
    · rw [if_pos hu]
      exact lastAssign_isSome_mono env rest u (i + 1) _ rfl
    · rw [if_neg hu]
      obtain ⟨j, b, hj, hub⟩ := h
      cases j with
      | zero =>
        rw [List.getElem?_cons_zero] at hj
        cases hj
        exact absurd hub hu
      | succ j' =>
        rw [List.getElem?_cons_succ] at hj
        exact ih (i + 1) acc ⟨j', b, hj, hub⟩

theorem lastAssign_all_err (env : Nat → BatchOutcome) (bs : List (List String))
    (u : String) :
    ∀ (i : Nat) (acc : Option (Option StreamData)),
    (∃ j : Nat, ∃ b : List String, bs[j]? = some b ∧ u ∈ b) →
    (∀ j b, bs[j]? = some b → u ∈ b → ∃ c, env (i + j) = .err c) →
    lastAssign env bs i u acc = some none := by
  induction bs with
  | nil =>
    intro i acc h _
    obtain ⟨j, b, hj, _⟩ := h
    simp at hj
  | cons b0 rest ih =>
    intro i acc hex hall
    simp only [lastAssign]
    by_cases hrest : ∃ j : Nat, ∃ b : List String, rest[j]? = some b ∧ u ∈ b
    · have hall' : ∀ j b, rest[j]? = some b → u ∈ b → ∃ c, env (i + 1 + j) = .err c := by
        intro j b hj hub
        have h2 := hall (j + 1) b (by rw [List.getElem?_cons_succ]; exact hj) hub
        have harith : i + (j + 1) = i + 1 + j := by omega
        rw [harith] at h2
        exact h2
      split
      · exact ih (i + 1) _ hrest hall'
      · exact ih (i + 1) acc hrest hall'
    · obtain ⟨j, b, hj, hub⟩ := hex
      cases j with
      | succ j' =>
        rw [List.getElem?_cons_succ] at hj
        exact absurd ⟨j', b, hj, hub⟩ hrest
      | zero =>
        rw [List.getElem?_cons_zero] at hj
        cases hj
        rw [if_pos hub]
        obtain ⟨c, hc⟩ := hall 0 b0 List.getElem?_cons_zero hub
        have hc' : env i = .err c := by
          have : i + 0 = i := rfl
          rw [this] at hc
          exact hc
        have hbv : batchVal env i u = none := by
          rw [batchVal, hc']
        rw [hbv]
        apply lastAssign_not_mem
        intro b' hb' hub'
        obtain ⟨j2, hj2⟩ := List.mem_iff_getElem?.mp hb'
        exact hrest ⟨j2, b', hj2, hub'⟩

theorem makeBatches_eq_cons (l : List String) (h : l ≠ []) :
    makeBatches l = l.take 100 :: makeBatches (l.drop 100) := by
  unfold makeBatches
  have hpos : 0 < l.length := List.length_pos.mpr h
  have hlen : (l.length + 99) / 100 = ((l.drop 100).length + 99) / 100 + 1 := by
    rw [List.length_drop]
    omega
  rw [hlen, List.range_succ_eq_map, List.map_cons, List.map_map]
  refine congrArg₂ _ (by simp) ?_
  apply List.map_congr_left
  intro i _
  simp only [Function.comp_apply, Nat.succ_eq_add_one]
  rw [List.drop_drop, (by ring : 100 + 100 * i = 100 * (i + 1))]

theorem exists_batch_of_mem_aux (n : Nat) :
    ∀ (l : List String), l.length ≤ n → ∀ u ∈ l,
    ∃ j : Nat, ∃ b : List String, (makeBatches l)[j]? = some b ∧ u ∈ b := by
  induction n with
  | zero =>
    intro l hl u hu
    have : l = [] := by
      cases l with
      | nil => rfl
      | cons x xs => simp at hl
    subst this
    simp at hu
  | succ n ih =>
    intro l hl u hu
    have hne : l ≠ [] := by
      rintro rfl
      simp at hu
    rw [makeBatches_eq_cons l hne]
    have hsplit : u ∈ l.take 100 ++ l.drop 100 := by
      rw [List.take_append_drop]
      exact hu
    rcases List.mem_append.mp hsplit with hmem | hmem
    · exact ⟨0, l.take 100, List.getElem?_cons_zero, hmem⟩
    · have hpos : 0 < l.length := List.length_pos.mpr hne
      have hdl : (l.drop 100).length ≤ n := by
        rw [List.length_drop]
        omega
      obtain ⟨j, b, hj, hub⟩ := ih (l.drop 100) hdl u hmem
      exact ⟨j + 1, b, by rw [List.getElem?_cons_succ]; exact hj, hub⟩

theorem exists_batch_of_mem (l : List String) (u : String) (hu : u ∈ l) :
    ∃ j : Nat, ∃ b : List String, (makeBatches l)[j]? = some b ∧ u ∈ b :=
  exists_batch_of_mem_aux l.length l (le_refl _) u hu

theorem mem_of_mem_makeBatches (l : List String) (b : List String) (x : String)
    (hb : b ∈ makeBatches l) (hx : x ∈ b) : x ∈ l := by
  simp only [makeBatches, List.mem_map, List.mem_range] at hb
  obtain ⟨i, _, rfl⟩ := hb
  exact List.mem_of_mem_drop (List.mem_of_mem_take hx)

/-! ## C9 — batch boundary -/

/-- C9, confirmed: `checkStreamsStatus` never places more than 100 names in
one physical request (every batch produced by the slicing loop has at most
100 names), and for 101 (valid) channel names the loop runs exactly twice,
issuing exactly 2 physical requests. -/
theorem C9_batch_boundary :
    (∀ (l : List String), ∀ b ∈ makeBatches l, b.length ≤ 100) ∧
    (∀ us : List String, (∀ u ∈ us, isValidUsername u = true) → us.length = 101 →
        (makeBatches (validUsernames us)).length = 2) := by
  constructor
  · intro l b hb
    simp only [makeBatches, List.mem_map] at hb
    obtain ⟨i, _, rfl⟩ := hb
    exact List.length_take_le 100 _
  · intro us hvalid hlen
    have hv : validUsernames us = us := by
      rw [validUsernames, List.filter_eq_self]
      intro u hu
      have h1 := hvalid u hu
      have h2 : u ≠ "" := by
        intro he
        rw [he] at h1
        simp [isValidUsername] at h1
      simp [h1, h2]
    rw [hv]
    simp only [makeBatches, List.length_map, List.length_range, hlen]

/-- C9, witness at 101 concrete valid names. -/
theorem C9_batch_boundary_witness :
    (∀ u ∈ List.replicate 101 "abcd", isValidUsername u = true) ∧
    (List.replicate 101 "abcd").length = 101 ∧
    (makeBatches (validUsernames (List.replicate 101 "abcd"))).length = 2 :=
  ⟨by decide, by simp,
   C9_batch_boundary.2 (List.replicate 101 "abcd") (by decide) (by simp)⟩

/-! ## C10 — username validation -/

/-- C10, confirmed: a `null` or empty input returns an empty map with no
validation error; a non-empty input with no name matching
`^[a-zA-Z0-9_]{4,25}$` throws the "Invalid username format" error; and a name
that fails the format is silently dropped — it is absent from any returned
map (`lookup = none`), not reported offline. -/
theorem C10_username_validation :
    (∀ env, checkStreamsStatus env none = .ok []) ∧
    (∀ env, checkStreamsStatus env (some []) = .ok []) ∧
    (∀ env (us : List String), us ≠ [] → (∀ u ∈ us, isValidUsername u = false) →
        checkStreamsStatus env (some us) = .error .invalidUsername) ∧
    (∀ env (us : List String) m (u : String), checkStreamsStatus env (some us) = .ok m →
        isValidUsername u = false → List.lookup u m = none) := by
  refine ⟨fun env => rfl, fun env => rfl, ?_, ?_⟩
  · intro env us hne hval
    have hlen : ¬ us.length = 0 := by
      intro h
      exact hne (List.length_eq_zero.mp h)
    have hfil : validUsernames us = [] := by
      rw [validUsernames, List.filter_eq_nil_iff]
      intro u hu
      simp [hval u hu]
    simp only [checkStreamsStatus, if_neg hlen, hfil]
    rfl
  · intro env us m u hok hval
    have hnomem : ∀ b ∈ makeBatches (validUsernames us), u ∉ b := by
      intro b hb hub
      have hu : u ∈ validUsernames us := mem_of_mem_makeBatches _ b u hb hub
      rw [validUsernames, List.mem_filter] at hu
      have := hu.2
      rw [hval] at this
      simp at this
    simp only [checkStreamsStatus] at hok
    by_cases hlen : us.length = 0
    · rw [if_pos hlen] at hok
      cases hok
      rfl
    · rw [if_neg hlen] at hok
      by_cases hvlen : (validUsernames us).length = 0
      · rw [if_pos hvlen] at hok
        cases hok
      · rw [if_neg hvlen] at hok
        have hlu : List.lookup u (runBatches env (makeBatches (validUsernames us)) 0
            ⟨[], false, none⟩).results = none := by
          rw [runBatches_results_lookup,
            lastAssign_not_mem env (makeBatches (validUsernames us)) u hnomem 0 none]
          rfl
        split at hok
        · split at hok
          · split at hok
            · cases hok
            · cases hok
              exact hlu
          · cases hok
            exact hlu
        · cases hok
          exact hlu

/-- C10, witness: empty input, an all-invalid input, and an input where the
invalid name `ab!` is dropped from the returned map. -/
theorem C10_username_validation_witness :
    checkStreamsStatus c1Env (some []) = .ok [] ∧
    (["ab!"] ≠ ([] : List String) ∧
      checkStreamsStatus c1Env (some ["ab!"]) = .error .invalidUsername) ∧
    (checkStreamsStatus c1Env (some ["ab!", "abcd"]) = .ok c1Statuses ∧
      isValidUsername "ab!" = false ∧ List.lookup "ab!" c1Statuses = none) :=
  ⟨C10_username_validation.2.1 c1Env,
   ⟨by decide,
    C10_username_validation.2.2.1 c1Env ["ab!"] (by decide) (by decide)⟩,
   ⟨rfl, by decide,
    C10_username_validation.2.2.2 c1Env ["ab!", "abcd"] c1Statuses "ab!" rfl (by decide)⟩⟩

/-! ## C4 — per-batch failures -/

/-- C4, counterexample.  The claim says the auth error of a failed batch is
thrown to the caller.  With 101 names (two batches), batch 0 failing with the
401 `AUTH_ERROR` and batch 1 failing with a 5xx `SERVER_ERROR`, the loop
overwrites `lastError` with the second error, the final test
`lastError.code === 'AUTH_ERROR' || lastError.code === 'RATE_LIMIT'` fails,
and a result map (everything null) is returned instead of the auth error
propagating. -/
theorem C4_counterexample :
    c4Env 0 = .err .authError ∧
    checkStreamsStatus c4Env (some c4Names) = .ok [("aaaa", none), ("bbbb", none)] :=
  ⟨rfl, rfl⟩

/-- C4, amended: `checkStreamsStatus` (on an input with at least one valid
name) throws `e` exactly when the LAST failing batch failed with `e` and `e`
is the auth error or the rate-limit error — an earlier auth/rate-limit
failure overwritten by a later different failure is swallowed.  When a map is
returned, a name all of whose containing batches failed maps to null, and
every valid name is present in the map. -/
theorem C4_batch_errors :
    (∀ env (us : List String) (e : ApiError), validUsernames us ≠ [] →
        (checkStreamsStatus env (some us) = .error e ↔
          (lastFailure env (makeBatches (validUsernames us)) 0 none = some e ∧
            (e = .authError ∨ e = .rateLimit)))) ∧
    (∀ env (us : List String) m (u : String),
        checkStreamsStatus env (some us) = .ok m →
        (∃ j : Nat, ∃ b : List String,
          (makeBatches (validUsernames us))[j]? = some b ∧ u ∈ b) →
        (∀ (j : Nat) (b : List String),
          (makeBatches (validUsernames us))[j]? = some b → u ∈ b → ∃ c, env j = .err c) →
        List.lookup u m = some none) ∧
    (∀ env (us : List String) m (u : String),
        checkStreamsStatus env (some us) = .ok m →
        u ∈ validUsernames us →
        (List.lookup u m).isSome = true) := by
  refine ⟨?_, ?_, ?_⟩
  · intro env us e hvne
    have hne : us ≠ [] := by
      intro h
      rw [h] at hvne
      exact hvne rfl
    have hlen : ¬ us.length = 0 := fun h => hne (List.length_eq_zero.mp h)
    have hvlen : ¬ (validUsernames us).length = 0 :=
      fun h => hvne (List.length_eq_zero.mp h)
    simp only [checkStreamsStatus, if_neg hlen, if_neg hvlen]
    have hLE : (runBatches env (makeBatches (validUsernames us)) 0 ⟨[], false, none⟩).lastError
        = lastFailure env (makeBatches (validUsernames us)) 0 none :=
      runBatches_lastError env (makeBatches (validUsernames us)) 0 ⟨[], false, none⟩
    have hHE : (runBatches env (makeBatches (validUsernames us)) 0 ⟨[], false, none⟩).hasError
        = anyFail env (makeBatches (validUsernames us)) 0 :=
      runBatches_hasError env (makeBatches (validUsernames us)) 0 ⟨[], false, none⟩
    have hIS : (lastFailure env (makeBatches (validUsernames us)) 0 none).isSome
        = anyFail env (makeBatches (validUsernames us)) 0 :=
      lastFailure_isSome env (makeBatches (validUsernames us)) 0 none
    cases hf : lastFailure env (makeBatches (validUsernames us)) 0 none with
    | none =>
      have hAF : anyFail env (makeBatches (validUsernames us)) 0 = false := by
        rw [← hIS, hf]
        rfl
      rw [hLE, hHE, hAF, hf]
      simp
    | some e2 =>
      have hAF : anyFail env (makeBatches (validUsernames us)) 0 = true := by
        rw [← hIS, hf]
        rfl
      rw [hLE, hHE, hAF, hf]
      cases e2 <;> cases e <;> simp
  · intro env us m u hok hex hall
    simp only [checkStreamsStatus] at hok
    by_cases hlen : us.length = 0
    · rw [if_pos hlen] at hok
      obtain ⟨j, b, hj, _⟩ := hex
      have hu0 : us = [] := List.length_eq_zero.mp hlen
      rw [hu0] at hj
      simp [validUsernames, makeBatches] at hj
    · rw [if_neg hlen] at hok
      by_cases hvlen : (validUsernames us).length = 0
      · rw [if_pos hvlen] at hok
        cases hok
      · rw [if_neg hvlen] at hok
        have hla : lastAssign env (makeBatches (validUsernames us)) 0 u none = some none := by
          apply lastAssign_all_err env _ u 0 none hex
          intro j b hj hub
          rw [Nat.zero_add]
          exact hall j b hj hub
        have hlu : List.lookup u (runBatches env (makeBatches (validUsernames us)) 0
            ⟨[], false, none⟩).results = some none := by
          rw [runBatches_results_lookup, hla]
        split at hok
        · split at hok
          · split at hok
            · cases hok
            · cases hok
              exact hlu
          · cases hok
            exact hlu
        · cases hok
          exact hlu
  · intro env us m u hok hmem
    simp only [checkStreamsStatus] at hok
    by_cases hlen : us.length = 0
    · have hu0 : us = [] := List.length_eq_zero.mp hlen
      rw [hu0] at hmem
      simp [validUsernames] at hmem
    · rw [if_neg hlen] at hok
      by_cases hvlen : (validUsernames us).length = 0
      · rw [if_pos hvlen] at hok
        cases hok
      · rw [if_neg hvlen] at hok
        have hex := exists_batch_of_mem (validUsernames us) u hmem
        have his : (lastAssign env (makeBatches (validUsernames us)) 0 u none).isSome = true :=
          lastAssign_isSome_of_mem env _ u 0 none hex
        have hlu : (List.lookup u (runBatches env (makeBatches (validUsernames us)) 0
            ⟨[], false, none⟩).results).isSome = true := by
          rw [runBatches_results_lookup]
          cases hla : lastAssign env (makeBatches (validUsernames us)) 0 u none with
          | none =>
            rw [hla] at his
            cases his
          | some v => rfl
        split at hok
        · split at hok
          · split at hok
            · cases hok
            · cases hok
              exact hlu
          · cases hok
            exact hlu
        · cases hok
          exact hlu

/-- C4, witness for the amended theorem at a single failing batch. -/
theorem C4_batch_errors_witness :
    validUsernames ["aaaa"] ≠ [] ∧
    (checkStreamsStatus (fun _ => .err ApiError.authError) (some ["aaaa"]) =
        .error .authError ↔
      (lastFailure (fun _ => .err ApiError.authError)
          (makeBatches (validUsernames ["aaaa"])) 0 none = some .authError ∧
        (ApiError.authError = ApiError.authError ∨
          ApiError.authError = ApiError.rateLimit))) :=
  ⟨by decide,
   C4_batch_errors.1 (fun _ => .err ApiError.authError) ["aaaa"] .authError (by decide)⟩

/-! ## C8 — retry of transient failures (code bug) -/

/-- C8.  The claim (and the spec) say 5xx, timeout and connection failures are
retried with doubling backoff at most the retry budget (3) times and then the
transient error is raised.  The code does neither: (1) for a permanent 5xx the
catch clause's condition `retries > 0 && !error.code || (error.code &&
retryable.includes(error.code))` is true regardless of `retries` (operator
precedence), so `_request` recurses forever and never raises — the model
returns `none` (still running) for EVERY fuel; (2) a timeout (`AbortError`)
or a connection failure is converted and re-thrown by the catch clause BEFORE
the retry branch is reached, so it is raised after exactly one physical
attempt (the returned attempt counter is 1), never retried. -/
theorem C8_transient_retry :
    (∀ (fuel attempt : Nat) (retries : Int),
        requestRetryModel (fun _ => .http 500) attempt retries fuel = none) ∧
    requestRetryModel (fun _ => .timeout) 0 3 10 = some (.error .timeout, 1) ∧
    requestRetryModel (fun _ => .netfail) 0 3 10 = some (.error .networkError, 1) := by
  refine ⟨?_, rfl, rfl⟩
  intro fuel
  induction fuel with
  | zero =>
    intro attempt retries
    rfl
  | succ n ih =>
    intro attempt retries
    simp [requestRetryModel, ih]
